import Mathlib

/-!
Shallow embedding of the chain-activity monitoring engine of the
DiscordBotTracking repository (src/bot.py, src/transaction_handler.py),
together with theorems settling the frozen claims about its
natural-language specification.

Conventions of the embedding:
- addresses, transaction hashes and log topics are strings, compared
  case-insensitively via str_lower exactly where the code lowercases;
- wei amounts are naturals; decimal (ether or token) amounts are rationals,
  standing in for the Python floats produced by from_wei and by division
  by a power of ten;
- fallible RPC calls are Option- or Except-valued parameters supplied by
  the environment, so a run of the code on a given sequence of provider
  answers is a pure computation.
-/

namespace DiscordBotTracking

/-- A receipt log entry: emitting contract address, topic list and the
data word decoded as a big-endian natural (Python int(log data, 16)). -/
structure Log where
  address : String
  topics : List String
  data : Nat
deriving DecidableEq, Repr

/-- A transaction as the code reads it from the provider.  The field
`sender` embeds the Python key `from` (a Lean keyword); `to` is `none`
for contract creations; `value` is in wei; `input` is the hex call-data
string including its 0x head. -/
structure Tx where
  sender : String
  toAddr : Option String
  value : Nat
  input : String
deriving DecidableEq, Repr

/-- A transaction receipt: `status` (1 = success), the deployed contract
address if any, gas used and the log list. -/
structure Receipt where
  status : Nat
  contractAddress : Option String
  blockNumber : Nat
  gasUsed : Nat
  logs : List Log
deriving DecidableEq, Repr

/-- Keccak hash of the ERC-20 Transfer event signature, as the literal
string both source files compare topic 0 against. -/
def TRANSFER_TOPIC : String :=
  "0xddf252ad1be2c89b69c2b068fc378daa952ba7f163c4a11628f55a4df523b3ef"

/-- Conversion of a wei amount to a decimal ether amount
(w3.from_wei(value, ether)). -/
def weiToEther (v : Nat) : ℚ := (v : ℚ) / 10 ^ 18

/-- Python str.startswith over the character list of the string: the
first characters of s equal the characters of the selector. -/
def str_starts_with (s sel : String) : Bool :=
  s.toList.take sel.toList.length == sel.toList

/-- Python str.lower, as the list of lowercased characters, used for the
case-insensitive address comparisons of the code. -/
def str_lower (s : String) : List Char :=
  s.toList.map Char.toLower

/-- The four transaction kinds returned by
TransactionHandler._determine_transaction_type. -/
inductive TxType where
  | contract_creation
  | token_transfer
  | contract_interaction
  | eth_transfer
deriving DecidableEq, Repr

/-- Embedding of TransactionHandler._determine_transaction_type
(src/transaction_handler.py lines 119-139): no `to` field means contract
creation, then the ERC-20 transfer selector, then deployed contract
address or non-empty call data, else a plain ether transfer. -/
def determine_transaction_type (tx : Tx) (receipt : Receipt) : TxType :=
  if tx.toAddr = none then
    TxType.contract_creation
  else if str_starts_with tx.input ("0xa9059cbb") then
    TxType.token_transfer
  else if receipt.contractAddress.isSome ∨ 2 < tx.input.length then
    TxType.contract_interaction
  else
    TxType.eth_transfer

/-- Modelled from the spec words of section 4.3: the classifier decision
list as the specification states it, rule by rule in the stated order:
1 absent `to` gives contract-creation; 2 input beginning with the 4-byte
selector 0xa9059cbb gives token-transfer; 3 a deployed contract address
in the receipt or non-empty call data gives contract-interaction;
4 otherwise eth-transfer. -/
def classify_spec (tx : Tx) (receipt : Receipt) : TxType :=
  match tx.toAddr with
  | none => TxType.contract_creation
  | some _ =>
    if str_starts_with tx.input ("0xa9059cbb") then
      TxType.token_transfer
    else if receipt.contractAddress.isSome ∨ 2 < tx.input.length then
      TxType.contract_interaction
    else
      TxType.eth_transfer

/-- A per-address filter configuration, read from the tracking data:
optional token contract constraint and optional minimum decimal amount.
Both fields absent embeds the empty Python filter dict. -/
structure Filters where
  token_address : Option String
  min_amount : Option ℚ
deriving DecidableEq

/-- Embedding of the token-address clause of
TransactionHandler._matches_filters (lines 102-106): the filter rejects
when a token address is configured, the transaction `to` field is present
and non-empty, and its lowercasing differs from the lowercased configured
address.  Note the code consults only the outer transaction `to`. -/
def token_filter_rejects (tx : Tx) (filters : Filters) : Bool :=
  match filters.token_address with
  | none => false
  | some ta =>
    match tx.toAddr with
    | none => false
    | some t => !(t == ("")) && !(str_lower t == str_lower ta)

/-- Embedding of the minimum-amount clause of
TransactionHandler._matches_filters (lines 109-114): the filter rejects
when a minimum is configured and the native ether value of the
transaction is below it.  Note the code always uses the native value. -/
def min_amount_rejects (tx : Tx) (filters : Filters) : Bool :=
  match filters.min_amount with
  | none => false
  | some m => decide (weiToEther tx.value < m)

/-- Embedding of TransactionHandler._matches_filters (lines 95-117):
an empty filter dict accepts immediately; otherwise the token clause and
then the amount clause may each reject; else accept. -/
def matches_filters (tx : Tx) (filters : Filters) : Bool :=
  if filters.token_address.isNone && filters.min_amount.isNone then
    true
  else if token_filter_rejects tx filters then
    false
  else if min_amount_rejects tx filters then
    false
  else
    true

/-- The four match kinds the specification attaches to a scanner hit. -/
inductive MatchKind where
  | native_sent
  | native_received
  | token_sent
  | token_received
deriving DecidableEq, Repr

/-- Whether a match kind is one of the two token kinds. -/
def MatchKind.isToken : MatchKind → Bool
  | MatchKind.token_sent => true
  | MatchKind.token_received => true
  | _ => false

/-- Modelled from the spec words of section 4.4 and claim C5: the filter
as the claim states it, parametrised by the match kind, the log token
contract and the decoded token amount.  The counterparty is the log
token contract for token kinds and `to` otherwise; the relevant amount
is the token amount for token kinds and the native value otherwise;
both clauses are conjunctive. -/
def matches_filters_claim (kind : MatchKind) (logTokenContract : String)
    (tokenAmount : ℚ) (tx : Tx) (f : Filters) : Bool :=
  (match f.token_address with
   | none => true
   | some ta =>
     match (if kind.isToken then some logTokenContract else tx.toAddr) with
     | none => false
     | some c => str_lower c == str_lower ta) &&
  (match f.min_amount with
   | none => true
   | some m =>
     decide (m ≤ (if kind.isToken then tokenAmount else weiToEther tx.value)))

/-- The amended filter semantics, stated in spec vocabulary: the
token-address clause compares the outer transaction `to` field for all
kinds, passing vacuously when `to` is absent or empty, and the
minimum-amount clause compares the native ether value for all kinds;
the clauses are conjunctive. -/
def matches_filters_amended (tx : Tx) (f : Filters) : Bool :=
  (match f.token_address with
   | none => true
   | some ta =>
     match tx.toAddr with
     | none => true
     | some t => decide (t = ("")) || decide (str_lower t = str_lower ta)) &&
  (match f.min_amount with
   | none => true
   | some m => decide (m ≤ weiToEther tx.value))

/-- Embedding of the ERC-20 transfer candidate test of the monitor loop
(src/bot.py line 291): exactly 3 topics and topic 0 equal to the
Transfer event signature hash. -/
def is_transfer_candidate_monitor (log : Log) : Bool :=
  decide (log.topics.length = 3) && (log.topics.headD ("") == TRANSFER_TOPIC)

/-- Embedding of the ERC-20 transfer candidate test of
TransactionHandler.process_transaction (src/transaction_handler.py
line 56): at least 3 topics and topic 0 equal to the Transfer event
signature hash. -/
def is_transfer_candidate_handler (log : Log) : Bool :=
  decide (3 ≤ log.topics.length) && (log.topics.headD ("") == TRANSFER_TOPIC)

/-- Decoding of an address from an indexed log topic: the low 20 bytes,
that is the last 40 hex characters, of the topic, with the 0x head
restored (Python 0x plus topic hex slice minus 40). -/
def decode_topic_address (t : String) : String :=
  "0x" ++ t.takeRight 40

/-- ERC-20 token metadata as fetched by the name, symbol and decimals
calls of the fixed read-only ABI. -/
structure TokenMeta where
  name : String
  symbol : String
  decimals : Nat
deriving DecidableEq, Repr

/-- The placeholder metadata substituted when the metadata calls fail
(src/bot.py lines 636-638): unknown name, unknown symbol, 18 decimals. -/
def placeholder_meta : TokenMeta :=
  { name := "Unknown Token", symbol := "???", decimals := 18 }

/-- The in-process state of DataManager that the monitoring paths
mutate: the set of already-notified transaction hashes, embedded as a
list (src/bot.py processed_txs). -/
structure BotState where
  processed_txs : List String
deriving DecidableEq, Repr

/-- Embedding of DataManager.is_tx_processed (src/bot.py lines 93-95). -/
def is_tx_processed (st : BotState) (tx_hash : String) : Bool :=
  st.processed_txs.contains tx_hash

/-- Embedding of DataManager.mark_tx_processed (src/bot.py
lines 97-99). -/
def mark_tx_processed (st : BotState) (tx_hash : String) : BotState :=
  { processed_txs := tx_hash :: st.processed_txs }

/-- A native-transfer notification as the Discord embed of
process_transaction carries it: hash, tracked address, direction,
decimal ether value, and the displayed counterparty (`to` when outgoing,
`from` when incoming). -/
structure NativeNotif where
  tx_hash : String
  address : String
  is_outgoing : Bool
  value_eth : ℚ
  counterparty : Option String
deriving DecidableEq

/-- Embedding of process_transaction (src/bot.py lines 535-621).  The
provider answers for the transaction and receipt fetches and the
availability of the configured Discord channel are environment
parameters.  The dedup cache is consulted first; a missing transaction
or receipt, a non-success receipt status, or a missing channel all yield
no notification; a delivered notification marks the hash processed. -/
def process_transaction (st : BotState) (txFetch : Option Tx)
    (receiptFetch : Option Receipt) (channelOk : Bool)
    (tx_hash address : String) (is_outgoing : Bool) :
    BotState × List NativeNotif :=
  if is_tx_processed st tx_hash then
    (st, [])
  else
    match txFetch, receiptFetch with
    | some tx, some receipt =>
      if receipt.status ≠ 1 then
        (st, [])
      else if channelOk then
        (mark_tx_processed st tx_hash,
         [{ tx_hash := tx_hash, address := address, is_outgoing := is_outgoing,
            value_eth := weiToEther tx.value,
            counterparty := if is_outgoing then tx.toAddr else some tx.sender }])
      else
        (st, [])
    | _, _ => (st, [])

/-- A token-transfer notification as the Discord embed of
process_token_transfer carries it: hash, tracked address, direction,
token symbol and name, decimal token amount, and the displayed
counterparty decoded from the log topics. -/
structure TokenNotif where
  tx_hash : String
  address : String
  is_outgoing : Bool
  token_symbol : String
  token_name : String
  token_amount : ℚ
  counterparty : String
deriving DecidableEq

/-- Embedding of process_token_transfer (src/bot.py lines 623-709).  The
metadata fetch answer and the channel availability are environment
parameters.  A failed metadata fetch substitutes the placeholder
metadata; the amount is the log data divided by ten to the decimals; the
notification is sent whenever the channel exists.  No dedup check is
made and the processed set is never written on this path. -/
def process_token_transfer (st : BotState) (metaFetch : Option TokenMeta)
    (channelOk : Bool) (tx_hash address : String) (log : Log)
    (is_outgoing : Bool) : BotState × List TokenNotif :=
  let meta := match metaFetch with
    | some m => m
    | none => placeholder_meta
  let token_amount : ℚ := (log.data : ℚ) / 10 ^ meta.decimals
  if channelOk then
    (st, [{ tx_hash := tx_hash, address := address, is_outgoing := is_outgoing,
            token_symbol := meta.symbol, token_name := meta.name,
            token_amount := token_amount,
            counterparty :=
              if is_outgoing then decode_topic_address (log.topics.getD 2 (""))
              else decode_topic_address (log.topics.getD 1 ("")) }])
  else
    (st, [])

/-- A decoded token transfer record as
TransactionHandler.process_transaction appends it
(src/transaction_handler.py lines 71-79). -/
structure TransferInfo where
  token_address : String
  token_name : String
  token_symbol : String
  sender : String
  toAddr : String
  value : ℚ
  raw_value : Nat
deriving DecidableEq

/-- Embedding of the transfer-record construction inside
TransactionHandler.process_transaction (lines 66-81): the metadata
lookup result is a dict that is empty on failure, so each field falls
back to its default: unknown name, unknown symbol, 18 decimals. -/
def build_transfer_info (token_info : Option TokenMeta)
    (token_contract from_addr to_addr : String) (value : Nat) : TransferInfo :=
  let decimals := match token_info with
    | some m => m.decimals
    | none => 18
  { token_address := token_contract
    token_name := match token_info with
      | some m => m.name
      | none => "Unknown Token"
    token_symbol := match token_info with
      | some m => m.symbol
      | none => "???"
    sender := from_addr
    toAddr := to_addr
    value := (value : ℚ) / 10 ^ decimals
    raw_value := value }

/-- The log scan of TransactionHandler.process_transaction
(lines 54-86): every candidate log yields a transfer record built from
the per-token metadata lookup answer, with the addresses decoded from
topics 1 and 2 and the raw amount from the log data. -/
def handler_token_transfers (lookup : String → Option TokenMeta)
    (logs : List Log) : List TransferInfo :=
  logs.filterMap fun log =>
    if is_transfer_candidate_handler log then
      some (build_transfer_info (lookup log.address) log.address
        (decode_topic_address (log.topics.getD 1 ("")))
        (decode_topic_address (log.topics.getD 2 ("")))
        log.data)
    else
      none

/-- The record TransactionHandler.process_transaction returns on
success (lines 40-51). -/
structure TxInfo where
  hash : String
  sender : String
  toAddr : Option String
  value : ℚ
  block_number : Nat
  gas_used : Nat
  token_transfers : List TransferInfo
deriving DecidableEq

/-- Embedding of TransactionHandler.process_transaction
(src/transaction_handler.py lines 17-93): a missing transaction, a
missing receipt, or a falsy receipt status each return none; otherwise
the record is built and the logs scanned for token transfers. -/
def handler_process_transaction (txFetch : Option Tx)
    (receiptFetch : Option Receipt) (lookup : String → Option TokenMeta)
    (tx_hash : String) : Option TxInfo :=
  match txFetch with
  | none => none
  | some tx =>
    match receiptFetch with
    | none => none
    | some receipt =>
      if receipt.status = 0 then
        none
      else
        some { hash := tx_hash, sender := tx.sender, toAddr := tx.toAddr,
               value := weiToEther tx.value,
               block_number := receipt.blockNumber,
               gas_used := receipt.gasUsed,
               token_transfers := handler_token_transfers lookup receipt.logs }

/-- A block as the monitor loop fetches it: its full transaction list. -/
structure Block where
  transactions : List Tx
deriving DecidableEq, Repr

/-- The inclusive block range the monitor loop walks for one address:
Python range(last_block plus 1, current_block plus 1). -/
def block_range (last_block current_block : Nat) : List Nat :=
  List.range' (last_block + 1) (current_block - last_block)

/-- The range walk of the monitor loop (src/bot.py lines 272-307): each
height is fetched inside its own try block; a failure is logged and the
walk continues with the next height.  The result splits the range into
the heights whose fetch succeeded and the heights whose fetch failed. -/
def scan_range (fetch : Nat → Except Unit Block) :
    List Nat → List Nat × List Nat
  | [] => ([], [])
  | n :: rest =>
    let (oks, fails) := scan_range fetch rest
    match fetch n with
    | Except.ok _ => (n :: oks, fails)
    | Except.error _ => (oks, n :: fails)

/-- The outcome of one per-address scan of the monitor loop: the cursor
value stored after the scan, the heights scanned and the heights whose
fetch failed. -/
structure ScanResult where
  cursor : Nat
  scanned : List Nat
  failed : List Nat
deriving DecidableEq, Repr

/-- Embedding of the per-address body of monitor_addresses
(src/bot.py lines 263-309): the range from the stored cursor plus one up
to the snapshot head is walked with per-height failures swallowed, and
then the cursor is assigned the snapshot head. -/
def check_address_cycle (fetch : Nat → Except Unit Block)
    (last_block current_block : Nat) : ScanResult :=
  let res := scan_range fetch (block_range last_block current_block)
  { cursor := current_block, scanned := res.1, failed := res.2 }

/-- Embedding of the address-level protection of monitor_addresses
(src/bot.py lines 258-313): an exception raised outside the per-height
handler, embedded as a failed checksum conversion, leaves the stored
cursor untouched; otherwise the per-address body runs and stores its
cursor. -/
def check_address (checksum : Except Unit String)
    (fetch : Nat → Except Unit Block) (last_block current_block : Nat) : Nat :=
  match checksum with
  | Except.error _ => last_block
  | Except.ok _ => (check_address_cycle fetch last_block current_block).cursor

/-- The two providers setup_web3_connection can hand back. -/
inductive Provider where
  | alchemy
  | publicRPC
deriving DecidableEq, Repr

/-- Embedding of setup_web3_connection (src/bot.py lines 175-218): with
no API key the public provider is returned at once; otherwise up to
max_retries connection attempts are made against the primary provider
and the first success returns it; after exhausting the attempts the
public provider is returned.  attemptOk gives the outcome of the
connectivity and head-height probe of each attempt. -/
def setup_web3_connection (hasKey : Bool) (attemptOk : Nat → Bool)
    (max_retries : Nat) : Provider :=
  if !hasKey then
    Provider.publicRPC
  else if (List.range max_retries).any attemptOk then
    Provider.alchemy
  else
    Provider.publicRPC

/-- Embedding of the module-level startup sequence (src/bot.py
lines 221-225): the provider chosen by setup_web3_connection is probed
once more; if it is not connected an exception is raised, so the bot and
with it the monitoring loop never start.  is_connected gives the outcome
of that final probe per provider. -/
def startup (hasKey : Bool) (attemptOk : Nat → Bool) (max_retries : Nat)
    (is_connected : Provider → Bool) : Except Unit Provider :=
  let w3 := setup_web3_connection hasKey attemptOk max_retries
  if is_connected w3 then
    Except.ok w3
  else
    Except.error ()

/-- A concrete transaction whose `to` field is a router contract,
distinct from the token contract appearing in its transfer log. -/
def tx_router : Tx :=
  { sender := "0xalice", toAddr := some ("0xrouter"), value := 0, input := "0x" }

/-- A filter configured with only a token-address constraint. -/
def token_only_filter : Filters :=
  { token_address := some ("0xtok"), min_amount := none }

/-- A concrete log carrying the Transfer signature and four topics. -/
def four_topic_log : Log :=
  { address := "0xtok", topics := [TRANSFER_TOPIC, "0xa1", "0xa2", "0xa3"],
    data := 0 }

/-- A concrete plain ether transfer used by several scenarios. -/
def tx_demo : Tx :=
  { sender := "0xalice", toAddr := some ("0xbob"), value := 10 ^ 18,
    input := "0x" }

/-- A concrete successful receipt with no logs. -/
def receipt_ok : Receipt :=
  { status := 1, contractAddress := none, blockNumber := 100,
    gasUsed := 21000, logs := [] }

/-- A concrete failed receipt. -/
def receipt_failed : Receipt :=
  { status := 0, contractAddress := none, blockNumber := 100,
    gasUsed := 21000, logs := [] }

/-- A concrete transfer log with exactly three topics. -/
def log_demo : Log :=
  { address := "0xtok", topics := [TRANSFER_TOPIC, "0xt1", "0xt2"],
    data := 5000000 }

/-- Concrete token metadata for a six-decimals token. -/
def meta_demo : TokenMeta :=
  { name := "Demo", symbol := "DMO", decimals := 6 }

/-- A block with no transactions. -/
def empty_block : Block := { transactions := [] }

/-- A block fetch oracle that fails at height 5 and succeeds elsewhere. -/
def failing_fetch : Nat → Except Unit Block :=
  fun n => if n = 5 then Except.error () else Except.ok empty_block

/-- A block fetch oracle that always succeeds. -/
def always_ok_fetch : Nat → Except Unit Block :=
  fun _ => Except.ok empty_block

/-- Claim C3: for every (transaction, receipt) pair the classifier is a
pure, deterministic, total function returning exactly one of the four
kinds, evaluated in the stated order, and in particular the selector
check precedes the generic has-call-data check: every transaction with a
`to` field whose input starts with the 0xa9059cbb selector is classified
token-transfer even though its call data is non-empty. -/
theorem classifier_matches_spec_order :
    ∀ (tx : Tx) (receipt : Receipt),
      determine_transaction_type tx receipt = classify_spec tx receipt ∧
      (tx.toAddr ≠ none → str_starts_with tx.input ("0xa9059cbb") = true →
        determine_transaction_type tx receipt = TxType.token_transfer) := by
  intro tx receipt
  constructor
  · unfold determine_transaction_type classify_spec
    cases h : tx.toAddr <;> simp [h]
  · intro h1 h2
    unfold determine_transaction_type
    cases h : tx.toAddr
    · exact absurd h h1
    · simp [h, h2]

/-- Witness for claim C3 at a concrete ERC-20 transfer call. -/
theorem classifier_matches_spec_order_witness :
    determine_transaction_type
      { sender := "0xalice", toAddr := some ("0xtok"), value := 0,
        input := "0xa9059cbb0000" }
      receipt_ok = TxType.token_transfer :=
  (classifier_matches_spec_order
      { sender := "0xalice", toAddr := some ("0xtok"), value := 0,
        input := "0xa9059cbb0000" }
      receipt_ok).2 (by decide) (by decide)

/-- Claim C4: evaluating the filter engine with an empty filter set
returns true for every transaction. -/
theorem empty_filters_accept_all :
    ∀ tx : Tx,
      matches_filters tx { token_address := none, min_amount := none } = true := by
  intro tx
  rfl

/-- Claim C5 counterexample: the claim says a token-kind match with a
token-address constraint compares the log token contract; on a
transaction sent through a router, the claim predicate accepts while the
code rejects, because the code compares only the outer `to` field. -/
theorem filters_ignore_token_kind_counterparty :
    matches_filters_claim MatchKind.token_received ("0xtok") 0 tx_router
        token_only_filter = true ∧
    matches_filters tx_router token_only_filter = false := by
  exact ⟨rfl, rfl⟩

/-- Claim C5 as amended: for every transaction and filter set, the
token-address clause compares the lowercased outer `to` field against
the lowercased constraint for all match kinds, passing vacuously when
`to` is absent or empty, and the minimum-amount clause requires the
native ether value to be at least the threshold for all match kinds;
the clauses are conjunctive. -/
theorem matches_filters_characterization :
    ∀ (tx : Tx) (f : Filters),
      matches_filters tx f = matches_filters_amended tx f := by
  intro tx f
  rcases f with ⟨ta, ma⟩
  rcases ta with _ | ta <;> rcases ma with _ | m <;>
    rcases h : tx.toAddr with _ | t <;>
    simp [matches_filters, matches_filters_amended, token_filter_rejects,
      min_amount_rejects, h]
  all_goals
    cases lt_or_le (weiToEther tx.value) m with
    | inl hlt => simp [hlt, not_le.mpr hlt]
    | inr hle => simp [hle, not_lt.mpr hle]

/-- Claim C6 counterexample: a log with four topics whose topic 0 is the
Transfer signature is accepted as a candidate by the handler criterion
although it does not have exactly 3 topics, so the candidate criterion
is not the same everywhere logs are scanned. -/
theorem handler_accepts_four_topic_log :
    is_transfer_candidate_handler four_topic_log = true ∧
    is_transfer_candidate_monitor four_topic_log = false ∧
    four_topic_log.topics.length ≠ 3 := by
  refine ⟨?_, ?_, ?_⟩ <;> decide

/-- Claim C6 as amended: both scan sites require topic 0 to equal the
Transfer signature, but the monitor loop requires exactly 3 topics while
the handler requires at least 3; the monitor criterion equals the
handler criterion conjoined with the exactly-3 test. -/
theorem monitor_candidate_is_handler_with_exact_three :
    ∀ log : Log,
      is_transfer_candidate_monitor log =
        (is_transfer_candidate_handler log && decide (log.topics.length = 3)) := by
  intro log
  unfold is_transfer_candidate_monitor is_transfer_candidate_handler
  by_cases h : log.topics.length = 3
  · simp [h]
  · simp [h]

/-- Claim C1 counterexample: a scan range in which the fetch of height 5
fails leaves height 5 in the failed list, yet the stored cursor after
the cycle is the snapshot head 6 and not the pre-scan value 4, so the
failed height is never retried. -/
theorem cursor_advances_past_failed_height :
    (check_address_cycle failing_fetch 4 6).failed = [5] ∧
    (check_address_cycle failing_fetch 4 6).cursor = 6 ∧
    (check_address_cycle failing_fetch 4 6).cursor ≠ 4 := by
  refine ⟨?_, ?_, ?_⟩ <;> decide

/-- Claim C1 as amended: a failed block height is logged and skipped and
the cursor is still set to the snapshot head at the end of the scan, for
every fetch oracle and range; the cursor keeps its pre-scan value only
when the address-level processing fails outside the per-height handler. -/
theorem cursor_set_to_head_despite_failures :
    ∀ (fetch : Nat → Except Unit Block) (last_block current_block : Nat),
      (check_address_cycle fetch last_block current_block).cursor = current_block ∧
      check_address (Except.error ()) fetch last_block current_block = last_block := by
  intro fetch last_block current_block
  exact ⟨rfl, rfl⟩

/-- Claim C2 counterexample: hash 0xh1 is notified on the native path
and thereby marked seen, yet a token transfer of the very same hash
still produces a second notification, because the token path consults
no dedup state. -/
theorem token_path_renotifies_seen_hash :
    ((process_transaction { processed_txs := [] } (some tx_demo)
        (some receipt_ok) true ("0xh1") ("0xaaa") true).2.length = 1) ∧
    (is_tx_processed (process_transaction { processed_txs := [] } (some tx_demo)
        (some receipt_ok) true ("0xh1") ("0xaaa") true).1 ("0xh1") = true) ∧
    ((process_token_transfer (process_transaction { processed_txs := [] }
        (some tx_demo) (some receipt_ok) true ("0xh1") ("0xaaa") true).1
        (some meta_demo) true ("0xh1") ("0xaaa") log_demo false).2.length = 1) := by
  refine ⟨?_, ?_, ?_⟩ <;> rfl

/-- Claim C2 as amended: the dedup cache is consulted before and marked
after emission on the native-transfer path only, so that path emits at
most once per hash within a run; the token-transfer path never reads or
writes the processed set. -/
theorem native_path_dedup_token_path_none :
    ∀ (st : BotState) (txF : Option Tx) (rF : Option Receipt) (ch : Bool)
      (h a : String) (o : Bool),
      (is_tx_processed st h = true →
        process_transaction st txF rF ch h a o = (st, [])) ∧
      ((process_transaction st txF rF ch h a o).2 ≠ [] →
        is_tx_processed (process_transaction st txF rF ch h a o).1 h = true) ∧
      (∀ (mF : Option TokenMeta) (cOk : Bool) (log : Log) (og : Bool),
        (process_token_transfer st mF cOk h a log og).1 = st) := by
  intro st txF rF ch h a o
  refine ⟨?_, ?_, ?_⟩
  · intro hseen
    simp [process_transaction, hseen]
  · intro hne
    by_cases hseen : is_tx_processed st h = true
    · exfalso
      apply hne
      simp [process_transaction, hseen]
    · simp [is_tx_processed] at hseen
      rcases txF with _ | tx <;> rcases rF with _ | r
      · simp [process_transaction, is_tx_processed, hseen] at hne
      · simp [process_transaction, is_tx_processed, hseen] at hne
      · simp [process_transaction, is_tx_processed, hseen] at hne
      · by_cases hst : r.status = 1
        · by_cases hch : ch = true
          · simp [process_transaction, is_tx_processed, hseen, hst, hch,
              mark_tx_processed]
          · exfalso
            apply hne
            simp [process_transaction, is_tx_processed, hseen, hst, hch]
        · exfalso
          apply hne
          simp [process_transaction, is_tx_processed, hseen, hst]
  · intro mF cOk log og
    cases cOk <;> rfl

/-- Witness for the amended claim C2 at a concrete already-seen hash. -/
theorem native_path_dedup_witness :
    process_transaction { processed_txs := ["0xh2"] } (some tx_demo)
      (some receipt_ok) true ("0xh2") ("0xaaa") true
      = ({ processed_txs := ["0xh2"] }, []) :=
  (native_path_dedup_token_path_none { processed_txs := ["0xh2"] }
      (some tx_demo) (some receipt_ok) true ("0xh2") ("0xaaa") true).1 (by rfl)

/-- Claim C7: when the token metadata lookup fails, both the monitor
token path and the handler transfer construction substitute the
placeholder metadata, unknown name, unknown symbol and 18 decimals, and
still produce the transfer record rather than failing. -/
theorem placeholder_metadata_on_lookup_failure :
    ∀ (st : BotState) (h a : String) (log : Log) (og : Bool)
      (tc f t : String) (v : Nat),
      process_token_transfer st none true h a log og =
        (st, [{ tx_hash := h, address := a, is_outgoing := og,
                token_symbol := "???", token_name := "Unknown Token",
                token_amount := (log.data : ℚ) / 10 ^ 18,
                counterparty :=
                  if og then decode_topic_address (log.topics.getD 2 (""))
                  else decode_topic_address (log.topics.getD 1 ("")) }]) ∧
      build_transfer_info none tc f t v =
        { token_address := tc, token_name := "Unknown Token",
          token_symbol := "???", sender := f, toAddr := t,
          value := (v : ℚ) / 10 ^ 18, raw_value := v } := by
  intro st h a log og tc f t v
  exact ⟨rfl, rfl⟩

/-- Claim C8 counterexample: with the stored cursor at 100 after a cycle
whose head was 100, a following cycle observing head 90 stores 90, a
strictly smaller cursor, so the cursor is not monotone for arbitrary
head sequences. -/
theorem cursor_decreases_when_head_decreases :
    check_address (Except.ok ("0xaaa")) always_ok_fetch 99 100 = 100 ∧
    check_address (Except.ok ("0xaaa")) always_ok_fetch
      (check_address (Except.ok ("0xaaa")) always_ok_fetch 99 100) 90 = 90 ∧
    (90 : Nat) < 100 := by
  refine ⟨?_, ?_, ?_⟩ <;> decide

/-- Claim C8 as amended: the stored cursor never decreases across cycles
whenever the snapshot head is at least the stored cursor; the code
stores the snapshot head unconditionally, so monotonicity holds exactly
for non-decreasing head sequences. -/
theorem cursor_monotone_for_monotone_heads :
    ∀ (checksum : Except Unit String) (fetch : Nat → Except Unit Block)
      (last_block current_block : Nat),
      last_block ≤ current_block →
      last_block ≤ check_address checksum fetch last_block current_block := by
  intro checksum fetch last_block current_block hle
  cases checksum
  · exact le_refl last_block
  · exact hle

/-- Witness for the amended claim C8 at concrete heights. -/
theorem cursor_monotone_witness :
    (50 : Nat) ≤ check_address (Except.ok ("0xaaa")) always_ok_fetch 50 52 :=
  cursor_monotone_for_monotone_heads (Except.ok ("0xaaa")) always_ok_fetch
    50 52 (by decide)

/-- Claim C9: when every bounded attempt against the primary provider
fails and the public fallback is unreachable, startup raises before the
monitoring loop starts, for every API-key configuration. -/
theorem startup_fatal_when_no_provider :
    ∀ (hasKey : Bool) (attemptOk : Nat → Bool) (max_retries : Nat)
      (is_connected : Provider → Bool),
      (∀ n, n < max_retries → attemptOk n = false) →
      is_connected Provider.publicRPC = false →
      startup hasKey attemptOk max_retries is_connected = Except.error () := by
  intro hasKey attemptOk max_retries is_connected hfail hpub
  have hsetup : setup_web3_connection hasKey attemptOk max_retries
      = Provider.publicRPC := by
    unfold setup_web3_connection
    cases hasKey
    · rfl
    · have hany : (List.range max_retries).any attemptOk = false := by
        rw [List.any_eq_false]
        intro x hx
        simp [hfail x (List.mem_range.mp hx)]
      simp [hany]
  simp [startup, hsetup, hpub]

/-- Witness for claim C9 with three failing attempts and an unreachable
fallback. -/
theorem startup_fatal_witness :
    startup true (fun _ => false) 3 (fun _ => false) = Except.error () :=
  startup_fatal_when_no_provider true (fun _ => false) 3 (fun _ => false)
    (fun _ _ => rfl) rfl

/-- Claim C10: a transaction whose receipt reports a failed status
yields no native-transfer notification and leaves the processed set
untouched, a notification is only ever emitted under a success status,
and the handler processing likewise returns nothing on a falsy status. -/
theorem failed_status_no_notification :
    ∀ (st : BotState) (tx : Tx) (r : Receipt) (ch : Bool) (h a : String)
      (o : Bool) (lookup : String → Option TokenMeta),
      (r.status ≠ 1 → process_transaction st (some tx) (some r) ch h a o = (st, [])) ∧
      ((process_transaction st (some tx) (some r) ch h a o).2 ≠ [] →
        r.status = 1) ∧
      (r.status = 0 →
        handler_process_transaction (some tx) (some r) lookup h = none) := by
  intro st tx r ch h a o lookup
  refine ⟨?_, ?_, ?_⟩
  · intro hst
    by_cases hseen : is_tx_processed st h = true
    · simp [process_transaction, hseen]
    · simp [process_transaction, hseen, hst]
  · intro hne
    by_cases hst : r.status = 1
    · exact hst
    · exfalso
      apply hne
      by_cases hseen : is_tx_processed st h = true
      · simp [process_transaction, hseen]
      · simp [process_transaction, hseen, hst]
  · intro hst
    simp [handler_process_transaction, hst]

/-- Witness for claim C10 at a concrete failed receipt. -/
theorem failed_status_witness :
    process_transaction { processed_txs := [] } (some tx_demo)
        (some receipt_failed) true ("0xh3") ("0xaaa") true
      = ({ processed_txs := [] }, []) ∧
    handler_process_transaction (some tx_demo) (some receipt_failed)
        (fun _ => none) ("0xh3") = none :=
  ⟨(failed_status_no_notification { processed_txs := [] } tx_demo
      receipt_failed true ("0xh3") ("0xaaa") true (fun _ => none)).1
      (by decide),
   (failed_status_no_notification { processed_txs := [] } tx_demo
      receipt_failed true ("0xh3") ("0xaaa") true (fun _ => none)).2.2 rfl⟩

end DiscordBotTracking
